import Mathlib

/-!
Verification development for the kiyomi-lite repository.

The repository ships a macOS installer shell script, an onboarding web
wizard, and a self-update subsystem documented in
src/engine/UPDATER_README.md.  The updater implementation itself
(engine/updater.py) is not part of the shipped sources, so its
components are modelled from the specification; the installer script
(src/unnamed/part_000) and the onboarding wizard
(src/onboarding/script.js) are embedded directly from their sources.

Text is modelled over List Char with structural recursion so that every
definition evaluates inside the kernel.
-/

/- ──────────────────────── Text primitives ──────────────────────── -/

/-- Drops whitespace from both ends of a character list; the embedding
of string trimming used by the intent classifier. -/
def trimChars (cs : List Char) : List Char :=
  ((cs.dropWhile fun c => c.isWhitespace).reverse.dropWhile
    fun c => c.isWhitespace).reverse

/-- Case-insensitive trimmed normal form of an input text: trim, then
lower-case every character. -/
def normalizeText (s : String) : List Char :=
  (trimChars s.data).map Char.toLower

/-- Whether the character list cs ends with the character list post. -/
def listEndsWith (cs post : List Char) : Bool :=
  post.reverse.isPrefixOf cs.reverse

/- ──────────────────── Intent Classifier (spec) ─────────────────── -/

/-- Decision of the intent classifier: whether the input is a
self-update request, and the phrase that matched. -/
structure IntentDecision where
  isUpdateRequest : Bool
  matchedPhrase : Option String
deriving DecidableEq, Repr

/-- Modelled from the spec: the fixed trigger-phrase list of
engine/updater.py (is_update_request), which is not under src/.  The
phrases are the ones listed in UPDATER_README.md under
"User-Triggered Updates". -/
def triggerPhrases : List (List Char) :=
  ["update".data, "update yourself".data, "check for updates".data,
   "upgrade".data, "get latest version".data, "please update".data,
   "upgrade to latest".data]

/-- Modelled from the spec: classifyUpdateIntent of engine/updater.py
(is_update_request), which is not under src/.  Whole-message match of
the case-insensitively trimmed input against the fixed trigger set;
any phrasing not on the list does not match (fail closed). -/
def classifyUpdateIntent (text : String) : IntentDecision :=
  let n := normalizeText text
  if n ∈ triggerPhrases then
    { isUpdateRequest := true, matchedPhrase := some (String.mk n) }
  else
    { isUpdateRequest := false, matchedPhrase := none }

/- ─────────────── Working copy and Remote State Prober ──────────── -/

/-- Local working copy: the checked-out source revision, the content
marker of the dependency manifest at that revision, and the manifest
content the installed dependencies correspond to.  Revision and
manifest markers are opaque identifiers, modelled as Nat. -/
structure WorkingCopy where
  sourceRev : Nat
  manifest : Nat
  installedDeps : Nat
deriving DecidableEq, Repr

/-- Result of a remote update check, per the data model of the spec. -/
structure UpdateCheckResult where
  updateAvailable : Bool
  localMarker : Nat
  remoteMarker : Option Nat
  commitsBehind : Nat
  error : Option String
deriving DecidableEq, Repr

/-- Environment seen by the prober: whether a remote is configured,
whether the network is reachable, the remote head marker, and the
count of revisions separating local HEAD from the remote head. -/
structure ProbeEnv where
  remoteConfigured : Bool
  networkUp : Bool
  remoteHead : Nat
  behindCount : Nat
deriving DecidableEq, Repr

/-- Modelled from the spec: checkForUpdates of engine/updater.py
(check_for_updates), which is not under src/.  Fails softly: on a
missing remote configuration or a network error it returns a result
with updateAvailable false and a non-null error instead of raising
(totality of this function models the no-crash guarantee).  The second
component is the working copy after the call; the prober never writes
to it. -/
def checkForUpdates (env : ProbeEnv) (wc : WorkingCopy) :
    UpdateCheckResult × WorkingCopy :=
  if env.remoteConfigured then
    if env.networkUp then
      ({ updateAvailable := decide (0 < env.behindCount),
         localMarker := wc.sourceRev,
         remoteMarker := some env.remoteHead,
         commitsBehind := env.behindCount,
         error := none }, wc)
    else
      ({ updateAvailable := false,
         localMarker := wc.sourceRev,
         remoteMarker := none,
         commitsBehind := 0,
         error := some "NetworkError: remote unreachable" }, wc)
  else
    ({ updateAvailable := false,
       localMarker := wc.sourceRev,
       remoteMarker := none,
       commitsBehind := 0,
       error := some "missing remote configuration" }, wc)

/- ───────────────────── Update Applier (spec) ───────────────────── -/

/-- Head of the remote default branch: revision marker and the
dependency-manifest content at that revision. -/
structure RemoteHead where
  rev : Nat
  manifest : Nat
deriving DecidableEq, Repr

/-- Failure modes of an apply attempt, per the error taxonomy of the
spec. -/
inductive ApplyFailure
  | networkError
  | permissionError
  | depInstallError
deriving DecidableEq, Repr

/-- Result of an apply attempt, per the data model of the spec. -/
structure ApplyResult where
  success : Bool
  filesChanged : List String
  dependenciesChanged : Bool
  error : Option String
deriving DecidableEq, Repr

/-- Modelled from the spec: applyUpdate of engine/updater.py, which is
not under src/.  Step 1 synchronizes the working copy to the remote
head (fast-forward, falling back to a hard reset; either way the
source ends exactly at the remote head or, on network or permission
failure, stays exactly at the pre-attempt revision).  Step 2
reinstalls dependencies when the manifest changed; a
dependency-install failure leaves the source fully updated and the
installed dependencies at their old state.  The failure parameter
injects the environment fault observed during the run. -/
def applyUpdate (wc : WorkingCopy) (remote : RemoteHead)
    (changedFiles : List String) (failure : Option ApplyFailure) :
    ApplyResult × WorkingCopy :=
  match failure with
  | some ApplyFailure.networkError =>
      ({ success := false, filesChanged := [],
         dependenciesChanged := false,
         error := some "NetworkError: remote unreachable" }, wc)
  | some ApplyFailure.permissionError =>
      ({ success := false, filesChanged := [],
         dependenciesChanged := false,
         error := some "PermissionError: cannot write install directory" },
       wc)
  | some ApplyFailure.depInstallError =>
      ({ success := false, filesChanged := changedFiles,
         dependenciesChanged := decide (wc.manifest ≠ remote.manifest),
         error := some "DependencyInstallError: manifest reinstallation failed" },
       { sourceRev := remote.rev, manifest := remote.manifest,
         installedDeps := wc.installedDeps })
  | none =>
      ({ success := true, filesChanged := changedFiles,
         dependenciesChanged := decide (wc.manifest ≠ remote.manifest),
         error := none },
       { sourceRev := remote.rev, manifest := remote.manifest,
         installedDeps :=
           if wc.manifest = remote.manifest then wc.installedDeps
           else remote.manifest })

/- ─────────────────── Update Orchestrator (spec) ────────────────── -/

/-- Phases of the orchestrator state machine of the spec. -/
inductive OrchPhase
  | idle
  | checking
  | notifying
  | applying
  | restarting
  | failed
deriving DecidableEq, Repr

/-- Orchestrator state: current phase, whether the current check was
forced by a conversational trigger, the number of Applier invocations
currently executing, and counters for Process Replacer invocations,
user notifications and surfaced errors. -/
structure OrchState where
  phase : OrchPhase
  forced : Bool
  appliesInFlight : Nat
  replacerInvocations : Nat
  notificationsEmitted : Nat
  errorsEmitted : Nat
deriving DecidableEq, Repr

/-- The orchestrator state at process start. -/
def initialOrchState : OrchState :=
  { phase := OrchPhase.idle, forced := false, appliesInFlight := 0,
    replacerInvocations := 0, notificationsEmitted := 0,
    errorsEmitted := 0 }

/-- Events driving the orchestrator: the startup check, a positive
conversational trigger, the prober result (update available, with the
autoUpdate configuration flag), completion of a notification, the
Applier finishing (with its success flag), and the user acknowledging
a failure. -/
inductive OrchEvent
  | startupCheck
  | userTrigger
  | probeResult (updateAvailable : Bool) (autoUpdate : Bool)
  | notifyDone
  | applyFinished (success : Bool)
  | failureHandled
deriving DecidableEq, Repr

/-- Modelled from the spec: the orchestrator state machine of
engine/updater.py and engine/bot.py, which are not under src/.
Transitions follow the spec: a trigger while not Idle is coalesced
into the in-flight attempt; a forced check goes to Applying regardless
of autoUpdate; Applier success invokes the Process Replacer; Applier
failure surfaces the error and returns to Idle via Failed without
invoking the replacer; Restarting is terminal. -/
def orchStep (s : OrchState) (e : OrchEvent) : OrchState :=
  match e with
  | OrchEvent.startupCheck =>
      if s.phase = OrchPhase.idle then
        { s with phase := OrchPhase.checking, forced := false }
      else s
  | OrchEvent.userTrigger =>
      if s.phase = OrchPhase.idle then
        { s with phase := OrchPhase.checking, forced := true }
      else s
  | OrchEvent.probeResult avail auto =>
      if s.phase = OrchPhase.checking then
        if avail then
          if auto || s.forced then
            { s with phase := OrchPhase.applying,
                     appliesInFlight := s.appliesInFlight + 1 }
          else
            { s with phase := OrchPhase.notifying,
                     notificationsEmitted := s.notificationsEmitted + 1 }
        else
          { s with phase := OrchPhase.idle }
      else s
  | OrchEvent.notifyDone =>
      if s.phase = OrchPhase.notifying then
        { s with phase := OrchPhase.idle }
      else s
  | OrchEvent.applyFinished success =>
      if s.phase = OrchPhase.applying then
        if success then
          { s with phase := OrchPhase.restarting,
                   appliesInFlight := s.appliesInFlight - 1,
                   replacerInvocations := s.replacerInvocations + 1 }
        else
          { s with phase := OrchPhase.failed,
                   appliesInFlight := s.appliesInFlight - 1,
                   errorsEmitted := s.errorsEmitted + 1 }
      else s
  | OrchEvent.failureHandled =>
      if s.phase = OrchPhase.failed then
        { s with phase := OrchPhase.idle }
      else s

/-- Runs the orchestrator over a list of events. -/
def orchRun (s : OrchState) : List OrchEvent → OrchState
  | [] => s
  | e :: es => orchRun (orchStep s e) es

/- ──────────── Installer: clone-or-update command list ──────────── -/

/-- Observable behaviour of one run of the update-synchronization
command list of the installer: whether git fetch ran, whether the hard
reset ran, and the exit status of the whole list. -/
structure SyncTrace where
  fetchRan : Bool
  resetRan : Bool
  exitOk : Bool
deriving DecidableEq, Repr

/-- Embedding of the clone-or-update line of src/unnamed/part_000:
`git pull --ff-only origin "$BRANCH" 2>/dev/null || git fetch origin && git reset --hard "origin/$BRANCH"`.
In bash an and-or list is left-associative with equal precedence, so
this parses as `(pull || fetch) && reset`: pull runs first; fetch runs
only when pull fails; the hard reset runs whenever the disjunction
succeeded.  Inputs are the exit statuses of pull and fetch; the reset
itself is assumed to succeed when it runs. -/
def updateSyncList (pullOk fetchOk : Bool) : SyncTrace :=
  let orOk := pullOk || fetchOk
  { fetchRan := !pullOk, resetRan := orOk, exitOk := orOk }

/- ─────────────── Installer: config setup and pipeline ──────────── -/

/-- Answers collected by the interactive setup of the installer. -/
structure SetupAnswers where
  userName : String
  botName : String
  providerChoice : String
  apiKey : String
  botToken : String
  timezone : String
deriving DecidableEq, Repr

/-- Provider and model chosen from the 1-3 menu answer, embedding the
case statement of src/unnamed/part_000 (2 is anthropic, 3 is openai,
anything else is gemini). -/
def providerOf (choice : String) : String × String :=
  if choice = "2" then ("anthropic", "claude-sonnet-4-20250514")
  else if choice = "3" then ("openai", "gpt-4o")
  else ("gemini", "gemini-2.0-flash")

/-- One quoted JSON field line of the config heredoc. -/
def quoteField (k v : String) : String :=
  "  \x22" ++ k ++ "\x22: \x22" ++ v ++ "\x22,\n"

/-- The config.json content written by the heredoc of
src/unnamed/part_000, for the collected answers.  The default bot name
is Kiyomi and the default provider choice is 1 (gemini); only the key
of the chosen provider is filled in. -/
def renderConfig (a : SetupAnswers) : String :=
  let bn := if a.botName = "" then "Kiyomi" else a.botName
  let pm := providerOf a.providerChoice
  let geminiKey := if pm.1 = "gemini" then a.apiKey else ""
  let anthropicKey := if pm.1 = "anthropic" then a.apiKey else ""
  let openaiKey := if pm.1 = "openai" then a.apiKey else ""
  "\x7b\n" ++ quoteField "name" a.userName ++ quoteField "bot_name" bn
    ++ quoteField "provider" pm.1 ++ quoteField "model" pm.2
    ++ quoteField "gemini_key" geminiKey
    ++ quoteField "anthropic_key" anthropicKey
    ++ quoteField "openai_key" openaiKey
    ++ quoteField "bot_token" a.botToken
    ++ quoteField "telegram_token" a.botToken
    ++ quoteField "telegram_user_id" ""
    ++ "  \x22setup_complete\x22: true,\n  \x22imported_chats\x22: false,\n"
    ++ "  \x22timezone\x22: \x22" ++ a.timezone ++ "\x22\n\x7d\n"

/-- Filesystem state touched by the installer: whether the engine
checkout and the venv exist, the config file content (none when the
file does not exist), the launch script content, and the lines of the
shell rc file. -/
structure InstallerFS where
  engineCloned : Bool
  venvCreated : Bool
  configFile : Option String
  launchScript : Option String
  shellRcLines : List String
deriving DecidableEq, Repr

/-- Clone-or-update step of the installer: ensures the engine checkout
exists (it never touches the config file). -/
def cloneOrUpdate (fs : InstallerFS) : InstallerFS :=
  { fs with engineCloned := true }

/-- Python venv creation and dependency install step of the installer
(no effect on the config file). -/
def setupVenv (fs : InstallerFS) : InstallerFS :=
  { fs with venvCreated := true }

/-- Setup section of src/unnamed/part_000: guarded by
`[[ ! -f "$KIYOMI_CONFIG" ]]`, so the interactive questions and the
config write happen only when the config file does not exist;
otherwise the whole section is skipped and the file is untouched. -/
def setupConfig (fs : InstallerFS) (a : SetupAnswers) : InstallerFS :=
  match fs.configFile with
  | some _ => fs
  | none => { fs with configFile := some (renderConfig a) }

/-- The start.sh content written by the installer. -/
def launchScriptContent : String :=
  "#!/bin/bash\nsource \x22$HOME/.kiyomi/venv/bin/activate\x22\ncd \x22$HOME/.kiyomi/engine/engine\x22\npython bot.py\n"

/-- Launch-script step of the installer: always rewrites start.sh. -/
def writeLaunchScript (fs : InstallerFS) : InstallerFS :=
  { fs with launchScript := some launchScriptContent }

/-- The alias line appended to the shell rc file. -/
def kiyomiAliasLine : String :=
  "alias kiyomi=\x22$HOME/.kiyomi/start.sh\x22"

/-- Shell-alias step of the installer: appends the alias block unless
an alias line is already present. -/
def addShellAlias (fs : InstallerFS) : InstallerFS :=
  if fs.shellRcLines.contains kiyomiAliasLine then fs
  else
    { fs with shellRcLines :=
        fs.shellRcLines ++ ["", "# Kiyomi Bot", kiyomiAliasLine] }

/-- The installer pipeline of src/unnamed/part_000 after the preflight
checks: clone or update the engine, set up the venv and dependencies,
run the guarded config setup, write the launch script, add the shell
alias. -/
def installerRun (fs : InstallerFS) (a : SetupAnswers) : InstallerFS :=
  addShellAlias (writeLaunchScript (setupConfig (setupVenv (cloneOrUpdate fs)) a))

/- ───────────── Onboarding wizard: config save (C9) ─────────────── -/

/-- The config object of src/onboarding/script.js (the fields the
wizard writes). -/
structure OnboardConfig where
  name : String
  provider : String
  cli_provider : String
  gemini_key : String
  anthropic_key : String
  openai_key : String
  telegram_token : String
  timezone : String
  imported_chats : Bool
  setup_complete : Bool
deriving DecidableEq, Repr

/-- Wizard-session state relevant to the config save: the config
object, the configSaved flag, and the localStorage fallback slot
(holding the config serialized there on a failed save). -/
structure WizardState where
  config : OnboardConfig
  configSaved : Bool
  localStorageConfig : Option OnboardConfig
deriving DecidableEq, Repr

/-- Embedding of saveConfigAndStartEngine (src/onboarding/script.js,
lines 522-538).  When configSaved is already true the function returns
at once.  Otherwise it sets setup_complete, issues the /api/config
fetch (the Bool result records whether a network request was issued);
on success it sets configSaved, on failure it stores the config in
localStorage.  The fetchOk parameter injects the network outcome. -/
def saveConfigAndStartEngine (st : WizardState) (fetchOk : Bool) :
    WizardState × Bool :=
  if st.configSaved then (st, false)
  else
    let cfg := { st.config with setup_complete := true }
    if fetchOk then
      ({ st with config := cfg, configSaved := true }, true)
    else
      ({ st with config := cfg, localStorageConfig := some cfg }, true)

/- ───────────── Onboarding wizard: file import (C10) ────────────── -/

/-- A file offered to the import drop zone: name and size in bytes. -/
structure FileInfo where
  name : String
  size : Nat
deriving DecidableEq, Repr

/-- CSS class of the import status box. -/
inductive ImportStatus
  | success
  | error
  | processing
  | imported
deriving DecidableEq, Repr

/-- State touched by processFile: the pending importedFile, the
imported_chats config flag, and the status box (shown flag and
class). -/
structure ImportUIState where
  importedFile : Option FileInfo
  imported_chats : Bool
  statusShown : Bool
  statusClass : ImportStatus
deriving DecidableEq, Repr

/-- Embedding of processFile (src/onboarding/script.js, lines
380-395).  The file is first stored in importedFile and the status box
is shown; when the name ends in .json or .zip the status becomes
success and imported_chats is set; otherwise the status becomes error
and importedFile is reset to null (imported_chats is left as it
was). -/
def processFile (f : FileInfo) (st : ImportUIState) : ImportUIState :=
  let st1 := { st with importedFile := some f, statusShown := true }
  if listEndsWith f.name.data ".json".data
      || listEndsWith f.name.data ".zip".data then
    { st1 with statusClass := ImportStatus.success, imported_chats := true }
  else
    { st1 with statusClass := ImportStatus.error, importedFile := none }

/- ───────────────────────── Theorems ────────────────────────────── -/

/-- Claim C1: the claim states that the hard reset runs only when the
fast-forward pull fails.  The code violates this: bash parses the
and-or list left-associatively, so after a successful fast-forward
pull (fetch correctly skipped) the hard reset still runs, discarding
local uncommitted state. -/
theorem hard_reset_runs_after_successful_ff_pull :
    ∀ fetchOk : Bool,
      (updateSyncList true fetchOk).resetRan = true ∧
      (updateSyncList true fetchOk).fetchRan = false := by
  intro fetchOk
  cases fetchOk <;> exact ⟨rfl, rfl⟩

/-- Claim C2: the classifier fails closed: every input whose
normalized form is not on the fixed trigger list gets a negative
decision. -/
theorem classifyUpdateIntent_fails_closed :
    ∀ t : String, normalizeText t ∉ triggerPhrases →
      (classifyUpdateIntent t).isUpdateRequest = false := by
  intro t h
  simp [classifyUpdateIntent, h]

/-- Witness for C2 at the three unrelated-noun examples of the
claim. -/
theorem classifyUpdateIntent_fails_closed_witness :
    (classifyUpdateIntent "update my calendar").isUpdateRequest = false ∧
    (classifyUpdateIntent "update the spreadsheet").isUpdateRequest = false ∧
    (classifyUpdateIntent "update my profile").isUpdateRequest = false :=
  ⟨classifyUpdateIntent_fails_closed _ (by decide),
   classifyUpdateIntent_fails_closed _ (by decide),
   classifyUpdateIntent_fails_closed _ (by decide)⟩

/-- Claim C3: every input whose case-insensitively trimmed form is on
the fixed trigger list gets a positive decision. -/
theorem classifyUpdateIntent_triggers_positive :
    ∀ t : String, normalizeText t ∈ triggerPhrases →
      (classifyUpdateIntent t).isUpdateRequest = true := by
  intro t h
  simp [classifyUpdateIntent, h]

/-- Witness for C3 at all seven trigger phrases, one of them with
extra whitespace and capitals to exercise the normalization. -/
theorem classifyUpdateIntent_triggers_positive_witness :
    (classifyUpdateIntent "update").isUpdateRequest = true ∧
    (classifyUpdateIntent "update yourself").isUpdateRequest = true ∧
    (classifyUpdateIntent "check for updates").isUpdateRequest = true ∧
    (classifyUpdateIntent "upgrade").isUpdateRequest = true ∧
    (classifyUpdateIntent "get latest version").isUpdateRequest = true ∧
    (classifyUpdateIntent "please update").isUpdateRequest = true ∧
    (classifyUpdateIntent "  Upgrade To Latest ").isUpdateRequest = true :=
  ⟨classifyUpdateIntent_triggers_positive _ (by decide),
   classifyUpdateIntent_triggers_positive _ (by decide),
   classifyUpdateIntent_triggers_positive _ (by decide),
   classifyUpdateIntent_triggers_positive _ (by decide),
   classifyUpdateIntent_triggers_positive _ (by decide),
   classifyUpdateIntent_triggers_positive _ (by decide),
   classifyUpdateIntent_triggers_positive _ (by decide)⟩

/-- Claim C5: every failing run of applyUpdate returns success false
with a non-null error, and leaves the working copy consistent: either
exactly the pre-attempt state or fully at the remote head, never a
partial state. -/
theorem applyUpdate_failure_consistent :
    ∀ (wc : WorkingCopy) (remote : RemoteHead) (cf : List String)
      (fk : ApplyFailure),
      (applyUpdate wc remote cf (some fk)).1.success = false ∧
      (applyUpdate wc remote cf (some fk)).1.error.isSome = true ∧
      ((applyUpdate wc remote cf (some fk)).2 = wc ∨
        ((applyUpdate wc remote cf (some fk)).2.sourceRev = remote.rev ∧
         (applyUpdate wc remote cf (some fk)).2.manifest = remote.manifest)) := by
  intro wc remote cf fk
  cases fk <;> simp [applyUpdate]

/-- Claim C6: checkForUpdates fails softly: on a network error or a
missing remote configuration it returns updateAvailable false with a
non-null error (it is a total function, so it never raises), and in
every run it leaves the working copy untouched. -/
theorem checkForUpdates_fails_softly :
    (∀ (env : ProbeEnv) (wc : WorkingCopy),
      env.networkUp = false ∨ env.remoteConfigured = false →
        (checkForUpdates env wc).1.updateAvailable = false ∧
        (checkForUpdates env wc).1.error.isSome = true) ∧
    (∀ (env : ProbeEnv) (wc : WorkingCopy),
      (checkForUpdates env wc).2 = wc) := by
  constructor
  · intro env wc h
    rcases h with h | h
    · cases hrc : env.remoteConfigured <;> simp [checkForUpdates, h, hrc]
    · simp [checkForUpdates, h]
  · intro env wc
    simp only [checkForUpdates]
    split
    · split <;> rfl
    · rfl

/-- Witness for C6 on a concrete network-down environment. -/
theorem checkForUpdates_fails_softly_witness :
    ((checkForUpdates ⟨true, false, 7, 3⟩ ⟨1, 2, 2⟩).1.updateAvailable = false ∧
     (checkForUpdates ⟨true, false, 7, 3⟩ ⟨1, 2, 2⟩).1.error.isSome = true) ∧
    (checkForUpdates ⟨true, false, 7, 3⟩ ⟨1, 2, 2⟩).2 = ⟨1, 2, 2⟩ :=
  ⟨checkForUpdates_fails_softly.1 ⟨true, false, 7, 3⟩ ⟨1, 2, 2⟩ (Or.inl rfl),
   checkForUpdates_fails_softly.2 ⟨true, false, 7, 3⟩ ⟨1, 2, 2⟩⟩

/-- Claim C8: when the config file already exists, the installer
leaves its content byte-for-byte unchanged (the setup section is
skipped by the existence guard, and no other step writes the config
file). -/
theorem installer_preserves_existing_config :
    ∀ (fs : InstallerFS) (a : SetupAnswers) (c : String),
      fs.configFile = some c → (installerRun fs a).configFile = some c := by
  intro fs a c h
  simp only [installerRun, addShellAlias, writeLaunchScript, setupConfig,
    setupVenv, cloneOrUpdate, h]
  split <;> rfl

/-- Witness for C8 on a concrete filesystem with an existing config. -/
theorem installer_preserves_existing_config_witness :
    (installerRun ⟨false, false, some "old config", none, []⟩
      ⟨"Ada", "", "1", "k", "t", "UTC"⟩).configFile = some "old config" :=
  installer_preserves_existing_config _ _ _ rfl

/-- Claim C9: saveConfigAndStartEngine is idempotent: a successful
invocation sets configSaved, and once configSaved is true every
further invocation returns the state unchanged (no config
modification) and issues no network request. -/
theorem saveConfigAndStartEngine_idempotent :
    (∀ st : WizardState,
      ((saveConfigAndStartEngine st true).1).configSaved = true) ∧
    (∀ (st : WizardState) (fetchOk : Bool), st.configSaved = true →
      saveConfigAndStartEngine st fetchOk = (st, false)) := by
  constructor
  · intro st
    by_cases h : st.configSaved <;> simp [saveConfigAndStartEngine, h]
  · intro st fetchOk h
    simp [saveConfigAndStartEngine, h]

/-- Witness for C9: after a successful save from a fresh session state
the flag is set, and a second call on the saved state is a no-op with
no request issued. -/
theorem saveConfigAndStartEngine_idempotent_witness :
    ((saveConfigAndStartEngine
        ⟨⟨"Ada", "gemini", "", "k", "", "", "1:t", "UTC", false, false⟩,
         false, none⟩ true).1).configSaved = true ∧
    saveConfigAndStartEngine
        ⟨⟨"Ada", "gemini", "", "k", "", "", "1:t", "UTC", false, true⟩,
         true, none⟩ true =
      (⟨⟨"Ada", "gemini", "", "k", "", "", "1:t", "UTC", false, true⟩,
        true, none⟩, false) :=
  ⟨saveConfigAndStartEngine_idempotent.1 _,
   saveConfigAndStartEngine_idempotent.2 _ true rfl⟩

/-- Claim C10: processFile rejects every file whose name ends in
neither .json nor .zip: importedFile is reset to null, imported_chats
is left unchanged (in particular never set to true by the call), and
an error status is shown. -/
theorem processFile_rejects_unsupported :
    ∀ (f : FileInfo) (st : ImportUIState),
      listEndsWith f.name.data ".json".data = false →
      listEndsWith f.name.data ".zip".data = false →
      (processFile f st).importedFile = none ∧
      (processFile f st).imported_chats = st.imported_chats ∧
      (processFile f st).statusClass = ImportStatus.error ∧
      (processFile f st).statusShown = true := by
  intro f st h1 h2
  simp [processFile, h1, h2]

/-- Witness for C10 on a concrete .txt file. -/
theorem processFile_rejects_unsupported_witness :
    (processFile ⟨"notes.txt", 5⟩ ⟨none, false, false, ImportStatus.success⟩).importedFile = none ∧
    (processFile ⟨"notes.txt", 5⟩ ⟨none, false, false, ImportStatus.success⟩).imported_chats = false ∧
    (processFile ⟨"notes.txt", 5⟩ ⟨none, false, false, ImportStatus.success⟩).statusClass = ImportStatus.error ∧
    (processFile ⟨"notes.txt", 5⟩ ⟨none, false, false, ImportStatus.success⟩).statusShown = true :=
  processFile_rejects_unsupported ⟨"notes.txt", 5⟩ _ (by decide) (by decide)

/-- Single-flight invariant: the count of concurrently-executing
Applier invocations is 1 exactly in the Applying phase and 0
otherwise. -/
def applyFlightInv (s : OrchState) : Prop :=
  s.appliesInFlight = if s.phase = OrchPhase.applying then 1 else 0

/-- Every orchestrator step preserves the single-flight invariant. -/
theorem orchStep_applyFlightInv (s : OrchState) (e : OrchEvent)
    (h : applyFlightInv s) : applyFlightInv (orchStep s e) := by
  unfold applyFlightInv at h ⊢
  cases e <;> simp only [orchStep] <;> split_ifs <;> simp_all

/-- Every orchestrator run from an invariant state stays invariant. -/
theorem orchRun_applyFlightInv (evs : List OrchEvent) (s : OrchState)
    (h : applyFlightInv s) : applyFlightInv (orchRun s evs) := by
  induction evs generalizing s with
  | nil => exact h
  | cons e es ih => exact ih _ (orchStep_applyFlightInv s e h)

/-- Claim C4: at most one apply is ever in flight: in every state
reachable from the initial orchestrator state the Applier is not
executing concurrently with itself, and a trigger received while the
machine is not Idle is coalesced (the step leaves the state exactly
as it was, starting no second apply). -/
theorem orchestrator_single_flight :
    (∀ evs : List OrchEvent,
      (orchRun initialOrchState evs).appliesInFlight ≤ 1) ∧
    (∀ s : OrchState, s.phase ≠ OrchPhase.idle →
      orchStep s OrchEvent.userTrigger = s) := by
  constructor
  · intro evs
    have h := orchRun_applyFlightInv evs initialOrchState
      (by simp [applyFlightInv, initialOrchState])
    unfold applyFlightInv at h
    split at h <;> omega
  · intro s hs
    simp [orchStep, hs]

/-- Witness for C4: a run that reaches Applying has at most one apply
in flight, and a trigger in a non-Idle state leaves the state
untouched. -/
theorem orchestrator_single_flight_witness :
    (orchRun initialOrchState
      [OrchEvent.startupCheck, OrchEvent.probeResult true true,
       OrchEvent.userTrigger]).appliesInFlight ≤ 1 ∧
    orchStep ⟨OrchPhase.applying, true, 1, 0, 0, 0⟩ OrchEvent.userTrigger =
      ⟨OrchPhase.applying, true, 1, 0, 0, 0⟩ :=
  ⟨orchestrator_single_flight.1 _,
   orchestrator_single_flight.2 _ (by decide)⟩

/-- Claim C7: the Process Replacer is invoked only after the Applier
reports success: on Applier failure the machine moves to Failed,
surfaces the error, and returns to Idle without invoking the
replacer; and the only step that ever changes the replacer-invocation
count is an Applier success observed in the Applying phase. -/
theorem replacer_only_after_apply_success :
    (∀ s : OrchState, s.phase = OrchPhase.applying →
      (orchStep s (OrchEvent.applyFinished false)).phase = OrchPhase.failed ∧
      (orchStep s (OrchEvent.applyFinished false)).errorsEmitted =
        s.errorsEmitted + 1 ∧
      (orchStep s (OrchEvent.applyFinished false)).replacerInvocations =
        s.replacerInvocations) ∧
    (∀ s : OrchState, s.phase = OrchPhase.failed →
      (orchStep s OrchEvent.failureHandled).phase = OrchPhase.idle ∧
      (orchStep s OrchEvent.failureHandled).replacerInvocations =
        s.replacerInvocations) ∧
    (∀ (s : OrchState) (e : OrchEvent),
      (orchStep s e).replacerInvocations ≠ s.replacerInvocations →
      s.phase = OrchPhase.applying ∧ e = OrchEvent.applyFinished true) := by
  refine ⟨?_, ?_, ?_⟩
  · intro s hs
    simp [orchStep, hs]
  · intro s hs
    simp [orchStep, hs]
  · intro s e hne
    cases e with
    | startupCheck => simp only [orchStep] at hne; split at hne <;> simp_all
    | userTrigger => simp only [orchStep] at hne; split at hne <;> simp_all
    | probeResult avail auto =>
        simp only [orchStep] at hne
        split at hne
        · split at hne
          · split at hne <;> simp_all
          · simp_all
        · simp_all
    | notifyDone => simp only [orchStep] at hne; split at hne <;> simp_all
    | applyFinished success =>
        simp only [orchStep] at hne
        split at hne
        · cases success with
          | false => simp_all
          | true => simp_all
        · simp_all
    | failureHandled => simp only [orchStep] at hne; split at hne <;> simp_all

/-- Witness for C7 at concrete states: an Applier failure in Applying
goes to Failed with the error surfaced and no replacer call, a handled
failure returns to Idle with the replacer count untouched, and a step
that did change the replacer count was an Applier success in
Applying. -/
theorem replacer_only_after_apply_success_witness :
    ((orchStep ⟨OrchPhase.applying, true, 1, 0, 0, 0⟩
        (OrchEvent.applyFinished false)).phase = OrchPhase.failed ∧
     (orchStep ⟨OrchPhase.applying, true, 1, 0, 0, 0⟩
        (OrchEvent.applyFinished false)).errorsEmitted = 0 + 1 ∧
     (orchStep ⟨OrchPhase.applying, true, 1, 0, 0, 0⟩
        (OrchEvent.applyFinished false)).replacerInvocations = 0) ∧
    ((orchStep ⟨OrchPhase.failed, false, 0, 1, 0, 0⟩
        OrchEvent.failureHandled).phase = OrchPhase.idle ∧
     (orchStep ⟨OrchPhase.failed, false, 0, 1, 0, 0⟩
        OrchEvent.failureHandled).replacerInvocations = 1) ∧
    ((⟨OrchPhase.applying, true, 1, 0, 0, 0⟩ : OrchState).phase =
        OrchPhase.applying ∧
     OrchEvent.applyFinished true = OrchEvent.applyFinished true) :=
  ⟨replacer_only_after_apply_success.1 _ rfl,
   replacer_only_after_apply_success.2.1 _ rfl,
   replacer_only_after_apply_success.2.2
     ⟨OrchPhase.applying, true, 1, 0, 0, 0⟩ (OrchEvent.applyFinished true)
     (by decide)⟩
